import Mathlib

/-!
Verification of the todo CRUD pipeline of `vite-fastify-todolist`.

The embedding follows the layered backend sources:
`src/backend-js/controllers.js` (HTTP handlers), `src/backend/services.js`
(business logic), `src/backend/repositories.js` (data access),
`src/backend/models.js` (knex table operations) and the declarative
Fastify schemas in `src/backend/schemas.js`.

The route-registration file `backend/main.js` is referenced by the README
("main.js — Fastify application setup and route definitions",
"Data Validation: Comprehensive input validation using Fastify schemas")
but is not among the provided sources; where its wiring decides a
behaviour, the wiring is modelled from the spec and the definition says so
in its doc comment.

JavaScript dynamic values reaching the validation code are modelled by
`JsVal`; a request payload is modelled by `Payload` (the three recognized
keys plus a count of unrecognized keys, which is all the sources inspect:
`typeof` checks, truthiness and `Object.keys(...).length`).  Strings are
modelled as their character sequences.
-/

/-- A JavaScript value as far as the backend's `typeof` / truthiness
checks can distinguish it. -/
inductive JsVal where
  | str (s : String)
  | num (n : Int)
  | bool (b : Bool)
  | null
deriving Repr, DecidableEq

/-- `typeof v === 'string'`. -/
def isStr : JsVal → Bool
  | .str _ => true
  | _ => false

/-- The string content of a value; only applied where the sources have
already established `typeof v === 'string'`. -/
def asStr : JsVal → String
  | .str s => s
  | _ => ""

/-- `typeof v === 'boolean'`. -/
def isBool : JsVal → Bool
  | .bool _ => true
  | _ => false

/-- The boolean content of a value; only applied where the sources have
already established `typeof v === 'boolean'`. -/
def asBool : JsVal → Bool
  | .bool b => b
  | _ => false

/-- JavaScript truthiness of a value. -/
def jsTruthy : JsVal → Bool
  | .str s => !(s == "")
  | .num n => !(n == 0)
  | .bool b => b
  | .null => false

/-- Truthiness of an optionally-present object field (`undefined` is falsy). -/
def jsTruthyOpt : Option JsVal → Bool
  | some v => jsTruthy v
  | none => false

/-- `typeof field === 'string'` for an optionally-present field
(`typeof undefined` is not `'string'`). -/
def isStrOpt : Option JsVal → Bool
  | some v => isStr v
  | none => false

/-- String content of an optionally-present field, defaulting to `""`. -/
def asStrOpt : Option JsVal → String
  | some v => asStr v
  | none => ""

/-- `typeof field === 'boolean'` for an optionally-present field. -/
def isBoolOpt : Option JsVal → Bool
  | some v => isBool v
  | none => false

/-- JavaScript `x || d`: the value when truthy, otherwise the default
(`undefined`, `''`, `0`, `false`, `null` all fall through). -/
def jsOrDefault (o : Option JsVal) (d : JsVal) : JsVal :=
  match o with
  | some v => if jsTruthy v then v else d
  | none => d

/-- The characters JavaScript `String.prototype.trim` removes (modulo
exotic Unicode space classes, which the sources never produce). -/
def trimChars (l : List Char) : List Char :=
  ((l.dropWhile Char.isWhitespace).reverse.dropWhile Char.isWhitespace).reverse

/-- JavaScript `s.trim()`. -/
def jsTrim (s : String) : String :=
  ⟨trimChars s.data⟩

/-- A request body: the three recognized todo keys (`title`,
`description`, `completed`), each possibly absent, plus the number of
unrecognized extra keys (the sources only ever count them via
`Object.keys(...).length`). -/
structure Payload where
  title : Option JsVal := none
  description : Option JsVal := none
  completed : Option JsVal := none
  extraKeys : Nat := 0
deriving Repr, DecidableEq

/-- `Object.keys(p).length`. -/
def keysCount (p : Payload) : Nat :=
  (if p.title.isSome then 1 else 0) +
  (if p.description.isSome then 1 else 0) +
  (if p.completed.isSome then 1 else 0) +
  p.extraKeys

/-- A persisted todo row (`src/backend/models.js`: table `todo` with
columns `id`, `title`, `description`, `completed`), which is also the
wire shape produced by `TodoService.toResponseFormat`. -/
structure Todo where
  id : Nat
  title : String
  description : String
  completed : Bool
deriving Repr, DecidableEq

/-- The SQLite-backed store: the rows plus the next auto-increment id
(`table.increments('id').primary()`, starting at 1). -/
structure Store where
  todos : List Todo
  nextId : Nat
deriving Repr, DecidableEq

/-- The empty freshly-migrated database. -/
def Store.empty : Store := { todos := [], nextId := 1 }

/-- Failure classification as the controller layer distinguishes it:
`validation` is a thrown `Error` whose message the controller maps to 400,
`invalidId` is the controller's 400 for a malformed id (or the params
schema rejection), `notFound` is `TodoNotFoundException` mapped to 404,
and `internal` is `handleError`'s generic 500. -/
inductive Err where
  | validation (msg : String)
  | invalidId (msg : String)
  | notFound (msg : String)
  | internal (msg : String)
deriving Repr, DecidableEq

/-- An apostrophe, kept out of string literals. -/
def apos : String := String.singleton (Char.ofNat 39)

/-- Message of `TodoNotFoundException` (`src/backend/repositories.js`,
`findById`). -/
def notFoundMsg (id : Nat) : String :=
  "Todo with id " ++ apos ++ toString id ++ apos ++ " not found"

/-- Message returned by `TodoService.deleteTodo`
(`src/backend/services.js` line 119). -/
def deleteMsg (id : Nat) : String :=
  "Todo with id " ++ apos ++ toString id ++ apos ++ " deleted"

/-- `Todo.findById` / the `where({ id }).first()` lookup. -/
def findTodo (st : Store) (id : Nat) : Option Todo :=
  st.todos.find? (fun t => t.id == id)

/-- Decimal value of a digit list, as accumulated left to right. -/
def digitsVal (l : List Char) : Nat :=
  l.foldl (fun n c => n * 10 + (c.toNat - 48)) 0

/-- The longest leading digit run of `l`, as a number; `none` when there
is no leading digit (this is how `parseInt` produces `NaN`). -/
def leadingDigits (l : List Char) : Option Nat :=
  let ds := l.takeWhile Char.isDigit
  if ds.isEmpty then none else some (digitsVal ds)

/-- JavaScript `parseInt(s, 10)` restricted to inputs without leading
whitespace (the only inputs the pipeline feeds it): an optional sign
followed by the longest digit run, `none` for `NaN`. -/
def parseIntChars (l : List Char) : Option Int :=
  match l with
  | [] => none
  | c :: _ =>
    if c == '-' then (leadingDigits (l.drop 1)).map (fun n => -(n : Int))
    else if c == '+' then (leadingDigits (l.drop 1)).map (fun n => (n : Int))
    else (leadingDigits l).map (fun n => (n : Int))

/-- Modelled from the spec: `backend/main.js` (absent from the provided
sources) attaches the Fastify route schemas of
`src/backend/schemas.js` (`routeSchemas`), whose params schemas require
`todoId` to match the pattern stated there, i.e. a non-empty string of
decimal digits; spec section 4.2 step 1 likewise rejects anything that is
not a syntactically valid non-negative integer string. -/
def fastifyIdGate (s : String) : Bool :=
  !(s.data.isEmpty) && s.data.all Char.isDigit

/-- Error produced when the params pattern gate rejects the id. -/
def idPatternMsg : String := "Todo ID must match the digits pattern"

/-- Identifier resolution as the handlers perform it: the (spec-modelled)
params schema gate, then the controller's `parseInt(todoId, 10)` with its
`isNaN` check (`src/backend-js/controllers.js` lines 36-44 and the
analogous lines of the other handlers). -/
def resolveIdStr (s : String) : Except Err Nat :=
  if fastifyIdGate s then
    match parseIntChars s.data with
    | none => .error (.invalidId "Todo ID must be a valid number")
    | some i => .ok i.toNat
  else .error (.invalidId idPatternMsg)

/-- `TodoService.validateTodoData` (`src/backend/services.js` lines
181-199): body required; `title` truthy, a string and not
whitespace-only; `description` a string when present; `completed` a
boolean when present. -/
def validateTodoData (todoData : Option Payload) : Except Err Unit :=
  match todoData with
  | none => .error (.validation "Todo data is required")
  | some d =>
    if !(jsTruthyOpt d.title) || !(isStrOpt d.title) || jsTrim (asStrOpt d.title) == "" then
      .error (.validation "Title is required and must be a non-empty string")
    else if d.description.isSome && !(isStrOpt d.description) then
      .error (.validation "Description must be a string")
    else if d.completed.isSome && !(isBoolOpt d.completed) then
      .error (.validation "Completed must be a boolean")
    else .ok ()

/-- Modelled from the spec: enforcement of `todoCreateSchema`
(`src/backend/schemas.js` lines 26-42) on the create body.  The schema
data is in the sources; its attachment to the route lives in the absent
`backend/main.js` (README: "Data Validation: Comprehensive input
validation using Fastify schemas"; spec section 4.1).  `title` is
required, a string of raw length 1..255; `description`, when present, a
string of raw length at most 1000; unrecognized properties (including
`completed`, per `additionalProperties: false` under Fastify's default
`removeAdditional`) are stripped from the body. -/
def fastifyCreateGate (body : Option Payload) : Except Err Payload :=
  match body with
  | none => .error (.validation "body must be object")
  | some b =>
    match b.title with
    | none => .error (.validation "body must have required property title")
    | some t =>
      if !(isStr t) then .error (.validation "body title must be string")
      else if (asStr t).length < 1 then
        .error (.validation "body title must NOT have fewer than 1 characters")
      else if 255 < (asStr t).length then
        .error (.validation "body title must NOT have more than 255 characters")
      else
        match b.description with
        | some dsc =>
          if !(isStr dsc) then .error (.validation "body description must be string")
          else if 1000 < (asStr dsc).length then
            .error (.validation "body description must NOT have more than 1000 characters")
          else .ok { b with completed := none, extraKeys := 0 }
        | none => .ok { b with completed := none, extraKeys := 0 }

/-- `TodoService.createTodo` composed with `TodoRepository.create` and
`Todo.create` (`src/backend/services.js` lines 48-61,
`src/backend/repositories.js` lines 58-68, `src/backend/models.js` lines
114-122): re-check the title, default the description with `|| ''`
(applied identically in service and model), insert the row with
`completed: false` and the next auto-increment id, and return the
inserted row. -/
def serviceCreateTodo (st : Store) (d : Payload) : Except Err Todo × Store :=
  if !(jsTruthyOpt d.title) || !(isStrOpt d.title) then
    (.error (.validation "Failed to create todo: Title is required and must be a string"), st)
  else
    let td : Todo :=
      { id := st.nextId
        title := asStrOpt d.title
        description := asStr (jsOrDefault d.description (.str ""))
        completed := false }
    (.ok td, { todos := st.todos ++ [td], nextId := st.nextId + 1 })

/-- `TodoController.createTodo` (`src/backend-js/controllers.js` lines
65-84): the (spec-modelled) body schema gate, then
`service.validateTodoData`, then `service.createTodo`.  The resulting
store is returned alongside the outcome. -/
def createTodoOp (st : Store) (body : Option Payload) : Except Err Todo × Store :=
  match fastifyCreateGate body with
  | .error e => (.error e, st)
  | .ok b =>
    match validateTodoData (some b) with
    | .error e => (.error e, st)
    | .ok _ => serviceCreateTodo st b

/-- Modelled from the spec: enforcement of `todoUpdateSchema`
(`src/backend/schemas.js` lines 48-64) on the update body, attached to
the route by the absent `backend/main.js`.  The body must be present and
have at least one property (`minProperties: 1`); each recognized property
present must satisfy its per-field schema (`title` a string of raw length
1..255, `description` a string of raw length at most 1000, `completed` a
boolean); unrecognized properties are stripped (`additionalProperties:
false` under Fastify's default `removeAdditional`). -/
def fastifyUpdateGate (body : Option Payload) : Except Err Payload :=
  match body with
  | none => .error (.validation "body must be object")
  | some b =>
    if keysCount b == 0 then
      .error (.validation "body must NOT have fewer than 1 properties")
    else if b.title.isSome && !(isStrOpt b.title) then
      .error (.validation "body title must be string")
    else if b.title.isSome && (asStrOpt b.title).length < 1 then
      .error (.validation "body title must NOT have fewer than 1 characters")
    else if b.title.isSome && 255 < (asStrOpt b.title).length then
      .error (.validation "body title must NOT have more than 255 characters")
    else if b.description.isSome && !(isStrOpt b.description) then
      .error (.validation "body description must be string")
    else if b.description.isSome && 1000 < (asStrOpt b.description).length then
      .error (.validation "body description must NOT have more than 1000 characters")
    else if b.completed.isSome && !(isBoolOpt b.completed) then
      .error (.validation "body completed must be boolean")
    else .ok { b with extraKeys := 0 }

/-- `TodoService.validateUpdateData` (`src/backend/services.js` lines
207-227): body present with at least one key; `title`, when present, a
string that does not trim to empty; `description`, when present, a
string; `completed`, when present, a boolean. -/
def validateUpdateData (updateData : Option Payload) : Except Err Unit :=
  match updateData with
  | none =>
    .error (.validation "Update data is required and must contain at least one field")
  | some d =>
    if keysCount d == 0 then
      .error (.validation "Update data is required and must contain at least one field")
    else if d.title.isSome && (!(isStrOpt d.title) || jsTrim (asStrOpt d.title) == "") then
      .error (.validation "Title must be a non-empty string")
    else if d.description.isSome && !(isStrOpt d.description) then
      .error (.validation "Description must be a string")
    else if d.completed.isSome && !(isBoolOpt d.completed) then
      .error (.validation "Completed must be a boolean")
    else .ok ()

/-- The type checks at the top of `TodoService.updateTodo`
(`src/backend/services.js` lines 76-84). -/
def serviceUpdateChecks (d : Payload) : Except Err Unit :=
  if d.title.isSome && !(isStrOpt d.title) then
    .error (.validation "Title must be a string")
  else if d.description.isSome && !(isStrOpt d.description) then
    .error (.validation "Description must be a string")
  else if d.completed.isSome && !(isBoolOpt d.completed) then
    .error (.validation "Completed must be a boolean")
  else .ok ()

/-- The update-body validation chain in pipeline order: the
(spec-modelled) Fastify body schema, then the controller's call to
`service.validateUpdateData` (`src/backend-js/controllers.js` line 107),
then `service.updateTodo`'s own type checks.  Returns the body as the
handler sees it (extra keys stripped by the schema layer). -/
def updValidate (body : Option Payload) : Except Err Payload :=
  match fastifyUpdateGate body with
  | .error e => .error e
  | .ok b =>
    match validateUpdateData (some b) with
    | .error e => .error e
    | .ok _ =>
      match serviceUpdateChecks b with
      | .error e => .error e
      | .ok _ => .ok b

/-- The per-row effect of `Todo.update` (`src/backend/models.js` lines
148-158): rows matching the id receive exactly the fields present in the
update data; other rows are untouched. -/
def applyUpd (id : Nat) (b : Payload) (t : Todo) : Todo :=
  if t.id == id then
    { t with
      title := match b.title with | some v => asStr v | none => t.title
      description := match b.description with | some v => asStr v | none => t.description
      completed := match b.completed with | some v => asBool v | none => t.completed }
  else t

/-- `Todo.update` (`src/backend/models.js` lines 148-158): run the
`UPDATE ... WHERE id` statement; when it matched no row (`updated === 0`)
return `null`, otherwise re-read and return the row. -/
def todoUpdateModel (st : Store) (id : Nat) (b : Payload) : Option Todo × Store :=
  let st' : Store := { st with todos := st.todos.map (applyUpd id b) }
  if st.todos.any (fun t => t.id == id) then (findTodo st' id, st')
  else (none, st')

/-- `TodoRepository.updateById` (`src/backend/repositories.js` lines
77-94): `findById` first (raising `TodoNotFoundException` when absent),
then `Todo.update`, raising `TodoNotFoundException` again if that
returned `null`. -/
def serviceUpdateTodo (st : Store) (id : Nat) (b : Payload) : Except Err Todo × Store :=
  match findTodo st id with
  | none => (.error (.notFound (notFoundMsg id)), st)
  | some _ =>
    match todoUpdateModel st id b with
    | (some t', st') => (.ok t', st')
    | (none, st') => (.error (.notFound (notFoundMsg id)), st')

/-- `TodoController.updateTodo` (`src/backend-js/controllers.js` lines
92-126): resolve the id (params gate plus `parseInt`/`isNaN`), validate
the body, then `service.updateTodo`.  The Fastify layer checks params
before the body; since a gate-passing id always parses, performing the
controller's `parseInt` before the body checks yields the same outcome
on every input. -/
def updateTodoOp (st : Store) (idStr : String) (body : Option Payload) :
    Except Err Todo × Store :=
  match resolveIdStr idStr with
  | .error e => (.error e, st)
  | .ok id =>
    match updValidate body with
    | .error e => (.error e, st)
    | .ok b => serviceUpdateTodo st id b

/-- `TodoRepository.toggleCompletion` (`src/backend/repositories.js`
lines 140-153): `findById`, then `Todo.update` with
`completed: !todo.completed`, returning that result without a further
null check (a `null` there would crash `toResponseFormat` and surface as
the controller's generic 500, hence `Err.internal`; the branch is
unreachable because `findById` succeeded). -/
def toggleCompletion (st : Store) (id : Nat) : Except Err Todo × Store :=
  match findTodo st id with
  | none => (.error (.notFound (notFoundMsg id)), st)
  | some t =>
    match todoUpdateModel st id { completed := some (.bool (!t.completed)) } with
    | (some t', st') => (.ok t', st')
    | (none, st') => (.error (.internal "An unexpected error occurred"), st')

/-- `TodoController.toggleTodoCompletion` (`src/backend-js/controllers.js`
lines 134-157): resolve the id, then `service.toggleTodoCompletion`. -/
def toggleTodoOp (st : Store) (idStr : String) : Except Err Todo × Store :=
  match resolveIdStr idStr with
  | .error e => (.error e, st)
  | .ok id => toggleCompletion st id

/-- The delete confirmation object (`deleteResponseSchema` in
`src/backend/schemas.js` lines 96-103: an object with the single
required property `message`). -/
structure DeleteResponse where
  message : String
deriving Repr, DecidableEq

/-- `TodoService.deleteTodo` with `TodoRepository.deleteById` and
`Todo.delete` (`src/backend/services.js` lines 116-124,
`src/backend/repositories.js` lines 119-132, `src/backend/models.js`
lines 165-168): `findById` first, then delete the matching rows and
answer with the success message. -/
def serviceDeleteTodo (st : Store) (id : Nat) : Except Err DeleteResponse × Store :=
  match findTodo st id with
  | none => (.error (.notFound (notFoundMsg id)), st)
  | some _ =>
    (.ok { message := deleteMsg id },
     { st with todos := st.todos.filter (fun t => !(t.id == id)) })

/-- `TodoController.deleteTodo` (`src/backend-js/controllers.js` lines
165-188): resolve the id, then `service.deleteTodo`. -/
def deleteTodoOp (st : Store) (idStr : String) : Except Err DeleteResponse × Store :=
  match resolveIdStr idStr with
  | .error e => (.error e, st)
  | .ok id => serviceDeleteTodo st id

/-- `TodoController.getTodo` (`src/backend-js/controllers.js` lines
34-57) with `TodoService.getTodoById` and `TodoRepository.findById`:
resolve the id, look the row up, and return it in response format (the
row's four columns). -/
def getTodoOp (st : Store) (idStr : String) : Except Err Todo :=
  match resolveIdStr idStr with
  | .error e => .error e
  | .ok id =>
    match findTodo st id with
    | none => .error (.notFound (notFoundMsg id))
    | some t => .ok t

/-- The statistics object (`todoStatsSchema`).  Fields are integers on
the wire; they are modelled as `Int` so that non-negativity is a real
statement. -/
structure TodoStats where
  total : Int
  completed : Int
  pending : Int
deriving Repr, DecidableEq

/-- `TodoService.getTodoStats` (`src/backend/services.js` lines 130-144):
read all rows, count them, count the completed ones, and subtract for
the pending count. -/
def getTodoStats (st : Store) : TodoStats :=
  { total := (st.todos.length : Int)
    completed := ((st.todos.filter (fun t => t.completed)).length : Int)
    pending := (st.todos.length : Int) -
      ((st.todos.filter (fun t => t.completed)).length : Int) }

/-- A wire value in a JSON response object. -/
inductive WireVal where
  | int (n : Nat)
  | str (s : String)
  | bool (b : Bool)
deriving Repr, DecidableEq

/-- The delete confirmation as serialized under `deleteResponseSchema`:
exactly the single key `message`. -/
def deleteResponseWire (r : DeleteResponse) : List (String × WireVal) :=
  [("message", .str r.message)]

/-- The data-model invariant of spec section 3: no persisted row has an
empty or whitespace-only title. -/
def TitleInv (st : Store) : Prop :=
  ∀ t ∈ st.todos, jsTrim t.title ≠ ""

/-- The description actually persisted by the create path for a validated
body: the field's string content when it is a string, `""` otherwise
(in particular when absent or the empty string, both of which the
source's `|| ''` collapses to `""`). -/
def descOrEmpty : Option JsVal → String
  | some (.str s) => s
  | _ => ""

/-! ## Supporting lemmas -/

/-- Trimming never lengthens a character list. -/
theorem trimChars_length_le (l : List Char) : (trimChars l).length ≤ l.length := by
  unfold trimChars
  have h1 : ((l.dropWhile Char.isWhitespace).reverse.dropWhile Char.isWhitespace).length ≤
      (l.dropWhile Char.isWhitespace).reverse.length :=
    (List.dropWhile_sublist Char.isWhitespace).length_le
  have h2 : (l.dropWhile Char.isWhitespace).length ≤ l.length :=
    (List.dropWhile_sublist Char.isWhitespace).length_le
  simp only [List.length_reverse] at h1 ⊢
  omega

/-- JavaScript `s.trim()` never lengthens a string. -/
theorem jsTrim_length_le (s : String) : (jsTrim s).length ≤ s.length :=
  trimChars_length_le s.data

/-- `applyUpd` never changes a row's id. -/
theorem applyUpd_id (id : Nat) (b : Payload) (t : Todo) :
    (applyUpd id b t).id = t.id := by
  unfold applyUpd
  split <;> rfl

/-- A row located by `find?` witnesses `any`. -/
theorem any_of_find (l : List Todo) (p : Todo → Bool) (t : Todo)
    (h : l.find? p = some t) : l.any p = true :=
  List.any_eq_true.mpr ⟨t, List.mem_of_find?_eq_some h, List.find?_some h⟩

/-- After rewriting every id-matching row with `applyUpd`, the row
`find?` locates is the rewritten image of the row it located before. -/
theorem find_map_applyUpd (id : Nat) (b : Payload) :
    ∀ (l : List Todo) (t : Todo), l.find? (fun u => u.id == id) = some t →
      (l.map (applyUpd id b)).find? (fun u => u.id == id) = some (applyUpd id b t) := by
  intro l
  induction l with
  | nil => intro t h; simp [List.find?] at h
  | cons hd tl ih =>
    intro t h
    simp only [List.find?, List.map_cons, applyUpd_id] at h ⊢
    cases hhd : (hd.id == id) with
    | true =>
      rw [hhd] at h
      simp only at h
      cases h
      rfl
    | false =>
      rw [hhd] at h
      simp only at h
      exact ih t h

/-- When the params gate rejects an id string, resolution reports the
malformed identifier. -/
theorem resolveIdStr_gate_false (s : String) (h : fastifyIdGate s = false) :
    resolveIdStr s = .error (.invalidId idPatternMsg) := by
  simp [resolveIdStr, h]

/-! ## Claim theorems -/

/-- C3: for every identifier string that is not a syntactically valid
non-negative integer string, each of get, update, toggle and delete
fails with the invalid-identifier classification and leaves the store
untouched. -/
theorem invalidId_rejects_all_ops (st : Store) (idStr : String) (body : Option Payload)
    (h : fastifyIdGate idStr = false) :
    getTodoOp st idStr = .error (.invalidId idPatternMsg) ∧
    updateTodoOp st idStr body = (.error (.invalidId idPatternMsg), st) ∧
    toggleTodoOp st idStr = (.error (.invalidId idPatternMsg), st) ∧
    deleteTodoOp st idStr = (.error (.invalidId idPatternMsg), st) := by
  have hres := resolveIdStr_gate_false idStr h
  exact ⟨by simp [getTodoOp, hres], by simp [updateTodoOp, hres],
    by simp [toggleTodoOp, hres], by simp [deleteTodoOp, hres]⟩

/-- Witness for C3 at the identifier strings named by the spec:
`"abc"`, `"-3"` and `"12abc"` are all rejected by every id-taking
operation. -/
theorem invalidId_rejects_all_ops_witness :
    fastifyIdGate "abc" = false ∧ fastifyIdGate "-3" = false ∧
    fastifyIdGate "12abc" = false ∧
    getTodoOp Store.empty "abc" = .error (.invalidId idPatternMsg) ∧
    updateTodoOp Store.empty "-3" none = (.error (.invalidId idPatternMsg), Store.empty) ∧
    toggleTodoOp Store.empty "12abc" = (.error (.invalidId idPatternMsg), Store.empty) ∧
    deleteTodoOp Store.empty "abc" = (.error (.invalidId idPatternMsg), Store.empty) :=
  ⟨by decide, by decide, by decide,
    (invalidId_rejects_all_ops Store.empty "abc" none (by decide)).1,
    (invalidId_rejects_all_ops Store.empty "-3" none (by decide)).2.1,
    (invalidId_rejects_all_ops Store.empty "12abc" none (by decide)).2.2.1,
    (invalidId_rejects_all_ops Store.empty "abc" none (by decide)).2.2.2⟩

/-- C8: for every store state, the statistics report the total row
count, the completed row count, their difference as pending, with the
accounting identity and non-negativity holding. -/
theorem stats_correct (st : Store) :
    (getTodoStats st).total = (st.todos.length : Int) ∧
    (getTodoStats st).completed = ((st.todos.filter (fun t => t.completed)).length : Int) ∧
    (getTodoStats st).pending = (getTodoStats st).total - (getTodoStats st).completed ∧
    (getTodoStats st).total = (getTodoStats st).completed + (getTodoStats st).pending ∧
    0 ≤ (getTodoStats st).total ∧ 0 ≤ (getTodoStats st).completed ∧
    0 ≤ (getTodoStats st).pending := by
  have hle : (st.todos.filter (fun t => t.completed)).length ≤ st.todos.length :=
    List.length_filter_le _ _
  unfold getTodoStats
  refine ⟨rfl, rfl, rfl, ?_, ?_, ?_, ?_⟩ <;> dsimp only <;> omega

/-- A failed body validation surfaces unchanged from the update handler
once the id has resolved. -/
theorem updateTodoOp_validation_err (st : Store) (idStr : String) (body : Option Payload)
    (id : Nat) (e : Err) (hid : resolveIdStr idStr = .ok id)
    (hv : updValidate body = .error e) :
    updateTodoOp st idStr body = (.error e, st) := by
  simp [updateTodoOp, hid, hv]

/-- C2 counterexample: for the well-formed identifier `"999"` on the
empty store (so the id is absent) and an empty update body, the update
pipeline reports a validation failure, never the not-found failure the
claim requires, because body validation runs before the store lookup. -/
theorem update_resolve_order_cex :
    resolveIdStr "999" = .ok 999 ∧
    findTodo Store.empty 999 = none ∧
    (updateTodoOp Store.empty "999" (some {})).1 =
      .error (.validation "body must NOT have fewer than 1 properties") ∧
    (∀ m, (updateTodoOp Store.empty "999" (some {})).1 ≠ .error (.notFound m)) := by
  refine ⟨rfl, rfl, rfl, ?_⟩
  intro m h
  have h1 : (updateTodoOp Store.empty "999" (some {})).1 =
      .error (.validation "body must NOT have fewer than 1 properties") := rfl
  have h2 := h1.symm.trans h
  simp at h2

/-- C2 amended: when the identifier is well formed but absent from the
store and the body passes validation, the update fails with the
not-found classification and the store is untouched. -/
theorem update_notFound_when_body_valid (st : Store) (idStr : String)
    (body : Option Payload) (id : Nat) (b : Payload)
    (hid : resolveIdStr idStr = .ok id)
    (hbody : updValidate body = .ok b)
    (habsent : findTodo st id = none) :
    updateTodoOp st idStr body = (.error (.notFound (notFoundMsg id)), st) := by
  simp [updateTodoOp, hid, hbody, serviceUpdateTodo, habsent]

/-- Witness for the amended C2: updating absent id 999 with the valid
body `{ title: "Updated" }` (the body the repository's own test sends)
yields not-found. -/
theorem update_notFound_when_body_valid_witness :
    updateTodoOp Store.empty "999" (some { title := some (.str "Updated") }) =
      (.error (.notFound (notFoundMsg 999)), Store.empty) :=
  update_notFound_when_body_valid Store.empty "999"
    (some { title := some (.str "Updated") }) 999
    { title := some (.str "Updated") } rfl rfl rfl

/-- C5: for every update call with a well-formed identifier whose body
is absent or has zero recognized keys, the pipeline fails with a
validation error and the store (hence every stored record) is
unchanged. -/
theorem empty_update_rejected (st : Store) (idStr : String) (body : Option Payload)
    (id : Nat) (hid : resolveIdStr idStr = .ok id)
    (hempty : body = none ∨
      ∃ p, body = some p ∧ p.title = none ∧ p.description = none ∧ p.completed = none) :
    (∃ m, (updateTodoOp st idStr body).1 = .error (.validation m)) ∧
    (updateTodoOp st idStr body).2 = st := by
  have hv : ∃ m, updValidate body = .error (.validation m) := by
    rcases hempty with rfl | ⟨p, rfl, ht, hd, hc⟩
    · exact ⟨"body must be object", rfl⟩
    · by_cases hk : p.extraKeys = 0
      · exact ⟨"body must NOT have fewer than 1 properties",
          by simp [updValidate, fastifyUpdateGate, keysCount, ht, hd, hc, hk]⟩
      · exact ⟨"Update data is required and must contain at least one field",
          by simp [updValidate, fastifyUpdateGate, validateUpdateData, keysCount,
            ht, hd, hc, hk]⟩
  obtain ⟨m, hm⟩ := hv
  have := updateTodoOp_validation_err st idStr body id (.validation m) hid hm
  exact ⟨⟨m, by rw [this]⟩, by rw [this]⟩

/-- Witness for C5: an update of existing id 1 with a body consisting
only of an unrecognized key fails validation and leaves the store as it
was. -/
theorem empty_update_rejected_witness :
    (∃ m, (updateTodoOp
        { todos := [{ id := 1, title := "A", description := "", completed := false }],
          nextId := 2 } "1" (some { extraKeys := 1 })).1 = .error (.validation m)) ∧
    (updateTodoOp
        { todos := [{ id := 1, title := "A", description := "", completed := false }],
          nextId := 2 } "1" (some { extraKeys := 1 })).2 =
      { todos := [{ id := 1, title := "A", description := "", completed := false }],
        nextId := 2 } :=
  empty_update_rejected _ "1" (some { extraKeys := 1 }) 1 rfl
    (Or.inr ⟨{ extraKeys := 1 }, rfl, rfl, rfl, rfl⟩)

/-- C7 counterexample: deleting the present id 1 succeeds, but the
confirmation is the object with the single key `message` (per
`deleteResponseSchema`), not an object of the shape with the single key
`id` that the claim states. -/
theorem delete_shape_cex :
    (deleteTodoOp
        { todos := [{ id := 1, title := "A", description := "", completed := false }],
          nextId := 2 } "1").1 = .ok { message := deleteMsg 1 } ∧
    (deleteResponseWire { message := deleteMsg 1 }).map Prod.fst = ["message"] ∧
    (∀ n, deleteResponseWire { message := deleteMsg 1 } ≠ [("id", WireVal.int n)]) := by
  refine ⟨rfl, rfl, ?_⟩
  intro n h
  have h2 := congrArg (fun l => (l.headD ("", WireVal.int 0)).1) h
  simp only [deleteResponseWire, List.headD] at h2
  exact absurd h2 (by decide)

/-- C7 amended: for every id present in the store, delete removes
exactly the matching record, keeps every other record, and succeeds
with a `{ message }` confirmation whose message echoes the id. -/
theorem delete_removes_and_echoes (st : Store) (idStr : String) (id : Nat) (t : Todo)
    (hid : resolveIdStr idStr = .ok id)
    (hfound : findTodo st id = some t) :
    (deleteTodoOp st idStr).1 =
      .ok { message := "Todo with id " ++ apos ++ toString id ++ apos ++ " deleted" } ∧
    (∀ u ∈ (deleteTodoOp st idStr).2.todos, u.id ≠ id) ∧
    (∀ u ∈ st.todos, u.id ≠ id → u ∈ (deleteTodoOp st idStr).2.todos) := by
  have hsnd : (deleteTodoOp st idStr).2.todos =
      st.todos.filter (fun u => !(u.id == id)) := by
    simp [deleteTodoOp, hid, serviceDeleteTodo, hfound]
  refine ⟨by simp [deleteTodoOp, hid, serviceDeleteTodo, hfound, deleteMsg], ?_, ?_⟩
  · intro u hu
    rw [hsnd] at hu
    have := (List.mem_filter.mp hu).2
    simpa using this
  · intro u hu hne
    rw [hsnd]
    exact List.mem_filter.mpr ⟨hu, by simpa using hne⟩

/-- Witness for the amended C7 on a two-record store: deleting id 1
keeps id 2. -/
theorem delete_removes_and_echoes_witness :
    (deleteTodoOp
        { todos := [{ id := 1, title := "A", description := "", completed := false },
                    { id := 2, title := "B", description := "", completed := true }],
          nextId := 3 } "1").1 =
      .ok { message := "Todo with id " ++ apos ++ toString 1 ++ apos ++ " deleted" } ∧
    (∀ u ∈ (deleteTodoOp
        { todos := [{ id := 1, title := "A", description := "", completed := false },
                    { id := 2, title := "B", description := "", completed := true }],
          nextId := 3 } "1").2.todos, u.id ≠ 1) ∧
    (∀ u ∈ ({ todos := [{ id := 1, title := "A", description := "", completed := false },
                        { id := 2, title := "B", description := "", completed := true }],
              nextId := 3 } : Store).todos, u.id ≠ 1 →
      u ∈ (deleteTodoOp
        { todos := [{ id := 1, title := "A", description := "", completed := false },
                    { id := 2, title := "B", description := "", completed := true }],
          nextId := 3 } "1").2.todos) :=
  delete_removes_and_echoes _ "1" 1
    { id := 1, title := "A", description := "", completed := false } rfl rfl

/-- The `|| ''` description defaulting computes exactly `descOrEmpty`. -/
theorem descOrEmpty_eq (o : Option JsVal) :
    asStr (jsOrDefault o (.str "")) = descOrEmpty o := by
  match o with
  | none => rfl
  | some (.str s) =>
    by_cases hs : s = ""
    · subst hs; rfl
    · simp [jsOrDefault, jsTruthy, hs, asStr, descOrEmpty]
  | some (.num n) =>
    by_cases hn : n = 0
    · subst hn; rfl
    · simp [jsOrDefault, jsTruthy, hn, asStr, descOrEmpty]
  | some (.bool b) => cases b <;> rfl
  | some .null => rfl

/-- What a passing `validateTodoData` guarantees about the title. -/
theorem validateTodoData_ok (d : Payload) (h : validateTodoData (some d) = .ok ()) :
    jsTruthyOpt d.title = true ∧ isStrOpt d.title = true ∧
    jsTrim (asStrOpt d.title) ≠ "" := by
  simp only [validateTodoData] at h
  split at h
  · exact absurd h (by simp)
  · split at h
    · exact absurd h (by simp)
    · split at h
      · exact absurd h (by simp)
      · rename_i hc1 hc2 hc3
        simp only [Bool.or_eq_true, Bool.not_eq_true', beq_iff_eq, not_or] at hc1
        obtain ⟨⟨h1, h2⟩, h3⟩ := hc1
        exact ⟨by simpa using h1, by simpa using h2, h3⟩

/-- A successful create-body gate only strips the unrecognized
properties. -/
theorem fastifyCreateGate_ok (p b : Payload) (h : fastifyCreateGate (some p) = .ok b) :
    b = { p with completed := none, extraKeys := 0 } := by
  simp only [fastifyCreateGate] at h
  repeat' split at h
  all_goals simp_all

/-- Anatomy of every successful create: the inserted and returned row
carries the next id, the title verbatim, the `|| ''`-defaulted
description, `completed = false`; it is appended to the store; and the
validated title is a string that does not trim to empty. -/
theorem createTodoOp_ok (st : Store) (p : Payload) (td : Todo) (st' : Store)
    (h : createTodoOp st (some p) = (.ok td, st')) :
    td = { id := st.nextId, title := asStrOpt p.title,
           description := descOrEmpty p.description, completed := false } ∧
    st' = { todos := st.todos ++ [td], nextId := st.nextId + 1 } ∧
    isStrOpt p.title = true ∧ jsTrim (asStrOpt p.title) ≠ "" := by
  unfold createTodoOp at h
  split at h
  · simp at h
  · rename_i b heq
    split at h
    · simp at h
    · rename_i heq2
      have hb := fastifyCreateGate_ok p b heq
      subst hb
      have hv := validateTodoData_ok _ heq2
      unfold serviceCreateTodo at h
      split at h
      · simp at h
      · simp only [Prod.mk.injEq, Except.ok.injEq] at h
        obtain ⟨h1, h2⟩ := h
        subst h1
        refine ⟨by simp [descOrEmpty_eq], by rw [← h2], ?_, ?_⟩
        · simpa using hv.2.1
        · simpa using hv.2.2

/-- C1: for every create input whose title is a string exceeding 255
characters after trimming, the create pipeline fails with a validation
error and the store is unchanged (no record inserted). -/
theorem create_title_too_long (st : Store) (p : Payload) (s : String)
    (ht : p.title = some (.str s))
    (hlen : 255 < (jsTrim s).length) :
    (createTodoOp st (some p)).1 =
      .error (.validation "body title must NOT have more than 255 characters") ∧
    (createTodoOp st (some p)).2 = st := by
  have h1 : 255 < s.length := lt_of_lt_of_le hlen (jsTrim_length_le s)
  have h2 : ¬ s.length < 1 := by omega
  constructor <;> simp [createTodoOp, fastifyCreateGate, ht, isStr, asStr, h1, h2]

set_option maxRecDepth 20000 in
/-- Witness for C1: a 256-character title is rejected and nothing is
inserted. -/
theorem create_title_too_long_witness :
    255 < (jsTrim (String.mk (List.replicate 256 'a'))).length ∧
    (createTodoOp Store.empty
        (some { title := some (.str (String.mk (List.replicate 256 'a'))) })).1 =
      .error (.validation "body title must NOT have more than 255 characters") ∧
    (createTodoOp Store.empty
        (some { title := some (.str (String.mk (List.replicate 256 'a'))) })).2 =
      Store.empty :=
  ⟨by decide,
    (create_title_too_long Store.empty _ _ rfl (by decide)).1,
    (create_title_too_long Store.empty _ _ rfl (by decide)).2⟩

/-- C4 counterexample: creating with title `" A "` persists the title
verbatim with its surrounding whitespace; the claimed trimming (which
would store `"A"`) does not happen anywhere on the create path. -/
theorem create_trims_title_cex :
    jsTrim " A " = "A" ∧
    ¬ (∀ td st', createTodoOp Store.empty (some { title := some (.str " A ") }) =
        (.ok td, st') → td.title = jsTrim " A ") := by
  refine ⟨by decide, ?_⟩
  intro hall
  have h := hall { id := 1, title := " A ", description := "", completed := false }
    { todos := [{ id := 1, title := " A ", description := "", completed := false }],
      nextId := 2 } rfl
  rw [show jsTrim " A " = "A" by decide] at h
  exact absurd h (by decide)

/-- C4 amended: for every valid create input, the persisted and
returned entity carries the title verbatim (untrimmed) and the
description verbatim when present as a string, defaulting to the empty
string when absent (or empty); `completed` is false and the row is
appended with the next id. -/
theorem create_stores_input_verbatim (st : Store) (p : Payload) (ti : String)
    (td : Todo) (st' : Store)
    (ht : p.title = some (.str ti))
    (h : createTodoOp st (some p) = (.ok td, st')) :
    td.title = ti ∧ td.description = descOrEmpty p.description ∧
    td.completed = false ∧ td.id = st.nextId ∧
    st'.todos = st.todos ++ [td] := by
  obtain ⟨h1, h2, _, _⟩ := createTodoOp_ok st p td st' h
  subst h1
  refine ⟨by simp [ht, asStrOpt, asStr], rfl, rfl, rfl, by rw [h2]⟩

/-- Witness for the amended C4: the scenario create of
`{title: "Buy groceries", description: "Milk, bread, eggs"}`. -/
theorem create_stores_input_verbatim_witness :
    ∃ td st', createTodoOp Store.empty
        (some { title := some (.str "Buy groceries"),
                description := some (.str "Milk, bread, eggs") }) = (.ok td, st') ∧
      td.title = "Buy groceries" ∧
      td.description = descOrEmpty (some (.str "Milk, bread, eggs")) ∧
      td.completed = false ∧ td.id = Store.empty.nextId ∧
      st'.todos = Store.empty.todos ++ [td] := by
  refine ⟨{ id := 1, title := "Buy groceries", description := "Milk, bread, eggs",
            completed := false },
    { todos := [{ id := 1, title := "Buy groceries",
                  description := "Milk, bread, eggs", completed := false }],
      nextId := 2 }, rfl, ?_⟩
  exact create_stores_input_verbatim Store.empty
    { title := some (.str "Buy groceries"),
      description := some (.str "Milk, bread, eggs") }
    "Buy groceries"
    { id := 1, title := "Buy groceries", description := "Milk, bread, eggs",
      completed := false }
    { todos := [{ id := 1, title := "Buy groceries",
                  description := "Milk, bread, eggs", completed := false }],
      nextId := 2 } rfl rfl

/-- C10: a create input additionally carrying a boolean `completed`
field still produces a record with `completed = false`: the field is
ignored, not stored. -/
theorem create_ignores_completed (st : Store) (p : Payload) (c : Bool)
    (td : Todo) (st' : Store)
    (_hc : p.completed = some (.bool c))
    (h : createTodoOp st (some p) = (.ok td, st')) :
    td.completed = false := by
  obtain ⟨h1, _, _, _⟩ := createTodoOp_ok st p td st' h
  rw [h1]

/-- Witness for C10: creating with `completed: true` still stores
`completed = false`. -/
theorem create_ignores_completed_witness :
    ∃ td st', createTodoOp Store.empty
        (some { title := some (.str "Buy"), completed := some (.bool true) }) =
        (.ok td, st') ∧ td.completed = false := by
  refine ⟨{ id := 1, title := "Buy", description := "", completed := false },
    { todos := [{ id := 1, title := "Buy", description := "", completed := false }],
      nextId := 2 }, rfl, ?_⟩
  exact create_ignores_completed Store.empty
    { title := some (.str "Buy"), completed := some (.bool true) } true
    { id := 1, title := "Buy", description := "", completed := false }
    { todos := [{ id := 1, title := "Buy", description := "", completed := false }],
      nextId := 2 } rfl rfl

/-- C6: toggling an id present in the store flips only the `completed`
field of its record (id, title, description unchanged; rows with other
ids untouched), and toggling twice restores the original `completed`
value. -/
theorem toggle_flips_only_completed (st : Store) (id : Nat) (t : Todo)
    (hfound : findTodo st id = some t) :
    ∃ t' st', toggleCompletion st id = (.ok t', st') ∧
      t'.id = t.id ∧ t'.title = t.title ∧ t'.description = t.description ∧
      t'.completed = !t.completed ∧
      (∀ u ∈ st.todos, u.id ≠ id → u ∈ st'.todos) ∧
      ∃ t'' st'', toggleCompletion st' id = (.ok t'', st'') ∧
        t''.completed = t.completed := by
  have hfound' : st.todos.find? (fun u => u.id == id) = some t := hfound
  have hpt : (t.id == id) = true := by simpa using List.find?_some hfound'
  have hany : st.todos.any (fun u => u.id == id) = true := any_of_find _ _ _ hfound'
  have happ : applyUpd id { completed := some (.bool (!t.completed)) } t =
      { t with completed := !t.completed } := by
    simp [applyUpd, hpt, asBool]
  have hfind2 := find_map_applyUpd id { completed := some (.bool (!t.completed)) }
    st.todos t hfound'
  rw [happ] at hfind2
  refine ⟨{ t with completed := !t.completed },
    { st with todos := st.todos.map (applyUpd id { completed := some (.bool (!t.completed)) }) },
    ?_, rfl, rfl, rfl, rfl, ?_, ?_⟩
  · unfold toggleCompletion todoUpdateModel
    rw [hfound]
    simp only [hany, if_true]
    rw [show findTodo { st with todos := st.todos.map (applyUpd id { completed := some (.bool (!t.completed)) }) } id = some { t with completed := !t.completed } from hfind2]
  · intro u hu hne
    have : applyUpd id { completed := some (.bool (!t.completed)) } u = u := by
      simp [applyUpd, show (u.id == id) = false by simpa using hne]
    exact this ▸ List.mem_map_of_mem _ hu
  · -- second toggle
    have hfound2 : findTodo { st with todos := st.todos.map (applyUpd id { completed := some (.bool (!t.completed)) }) } id = some { t with completed := !t.completed } := hfind2
    have hpt2 : (({ t with completed := !t.completed } : Todo).id == id) = true := hpt
    have hany2 : (st.todos.map (applyUpd id { completed := some (.bool (!t.completed)) })).any (fun u => u.id == id) = true :=
      any_of_find _ _ _ hfind2
    have happ2 : applyUpd id { completed := some (.bool (!(!t.completed))) }
        ({ t with completed := !t.completed }) =
        { t with completed := !(!t.completed) } := by
      simp [applyUpd, hpt, asBool]
    have hfind3 := find_map_applyUpd id
      { completed := some (.bool (!(!t.completed))) }
      (st.todos.map (applyUpd id { completed := some (.bool (!t.completed)) }))
      { t with completed := !t.completed } hfind2
    rw [happ2] at hfind3
    refine ⟨{ t with completed := !(!t.completed) },
      { st with todos := (st.todos.map (applyUpd id { completed := some (.bool (!t.completed)) })).map (applyUpd id { completed := some (.bool (!(!t.completed))) }) },
      ?_, by simp⟩
    unfold toggleCompletion todoUpdateModel
    rw [hfound2]
    simp only [hany2, if_true]
    rw [show findTodo { st with todos := (st.todos.map (applyUpd id { completed := some (.bool (!t.completed)) })).map (applyUpd id { completed := some (.bool (!(!t.completed))) }) } id = some { t with completed := !(!t.completed) } from hfind3]

/-- Witness for C6 on a one-record store. -/
theorem toggle_flips_only_completed_witness :
    findTodo { todos := [{ id := 1, title := "A", description := "", completed := false }],
               nextId := 2 } 1 =
      some { id := 1, title := "A", description := "", completed := false } ∧
    ∃ t' st', toggleCompletion
        { todos := [{ id := 1, title := "A", description := "", completed := false }],
          nextId := 2 } 1 = (.ok t', st') ∧
      t'.id = 1 ∧ t'.title = "A" ∧ t'.description = "" ∧ t'.completed = !false ∧
      (∀ u ∈ ({ todos := [{ id := 1, title := "A", description := "",
                            completed := false }], nextId := 2 } : Store).todos,
        u.id ≠ 1 → u ∈ st'.todos) ∧
      ∃ t'' st'', toggleCompletion st' 1 = (.ok t'', st'') ∧ t''.completed = false :=
  ⟨rfl, toggle_flips_only_completed _ 1
    { id := 1, title := "A", description := "", completed := false } rfl⟩

/-- What a passing `validateUpdateData` guarantees about a present
title. -/
theorem validateUpdateData_ok_title (d : Payload)
    (h : validateUpdateData (some d) = .ok ()) (hsome : d.title.isSome = true) :
    isStrOpt d.title = true ∧ jsTrim (asStrOpt d.title) ≠ "" := by
  simp only [validateUpdateData] at h
  split at h
  · exact absurd h (by simp)
  · split at h
    · exact absurd h (by simp)
    · split at h
      · exact absurd h (by simp)
      · split at h
        · exact absurd h (by simp)
        · rename_i hc0 hc1 hc2 hc3
          simp only [hsome, Bool.true_and, Bool.and_eq_true, Bool.or_eq_true,
            Bool.not_eq_true', beq_iff_eq, not_or] at hc1
          exact ⟨by simpa using hc1.1, hc1.2⟩

/-- What the whole update-body validation chain guarantees about a
present title. -/
theorem updValidate_ok_title (body : Option Payload) (b : Payload)
    (h : updValidate body = .ok b) (hsome : b.title.isSome = true) :
    isStrOpt b.title = true ∧ jsTrim (asStrOpt b.title) ≠ "" := by
  unfold updValidate at h
  split at h
  · exact absurd h (by simp)
  case h_2 b' heq =>
    split at h
    · exact absurd h (by simp)
    case h_2 heq2 =>
      split at h
      · exact absurd h (by simp)
      case h_2 heq3 =>
        cases h
        exact validateUpdateData_ok_title _ heq2 hsome

/-- The store `Todo.update` leaves behind, in every branch. -/
theorem todoUpdateModel_snd (st : Store) (id : Nat) (b : Payload) :
    (todoUpdateModel st id b).2 = { st with todos := st.todos.map (applyUpd id b) } := by
  unfold todoUpdateModel
  split <;> rfl

/-- C9: every operation (create, update, toggle, delete) preserves the
invariant that no stored record has an empty or whitespace-only
title. -/
theorem title_invariant_preserved (st : Store) (hinv : TitleInv st) :
    (∀ body, TitleInv (createTodoOp st body).2) ∧
    (∀ idStr body, TitleInv (updateTodoOp st idStr body).2) ∧
    (∀ idStr, TitleInv (toggleTodoOp st idStr).2) ∧
    (∀ idStr, TitleInv (deleteTodoOp st idStr).2) := by
  have happly : ∀ (id : Nat) (b : Payload),
      (b.title = none ∨ (isStrOpt b.title = true ∧ jsTrim (asStrOpt b.title) ≠ "")) →
      TitleInv { st with todos := st.todos.map (applyUpd id b) } := by
    intro id b hb t htmem
    dsimp only at htmem
    obtain ⟨u, hu, hut⟩ := List.mem_map.mp htmem
    subst hut
    unfold applyUpd
    split
    · rcases hb with hb | hb
      · simp only [hb]
        exact hinv u hu
      · rcases hbt : b.title with _ | v
        · simp only [hbt]
          exact hinv u hu
        · simp only [hbt]
          have := hb.2
          rw [hbt] at this
          simpa [asStrOpt] using this
    · exact hinv u hu
  refine ⟨?_, ?_, ?_, ?_⟩
  · intro body
    unfold createTodoOp
    split
    · exact hinv
    · rename_i b heq
      split
      · exact hinv
      · rename_i heq2
        unfold serviceCreateTodo
        split
        · exact hinv
        · intro t htmem
          dsimp only at htmem
          rcases List.mem_append.mp htmem with hold | hnew
          · exact hinv t hold
          · rw [List.mem_singleton] at hnew
            subst hnew
            exact (validateTodoData_ok b heq2).2.2
  · intro idStr body
    unfold updateTodoOp
    split
    · exact hinv
    · rename_i id heq
      split
      · exact hinv
      · rename_i b heq2
        unfold serviceUpdateTodo
        split
        · exact hinv
        · rename_i t0 heq3
          split
          · rename_i t' st2 heq4
            have hsnd := congrArg Prod.snd heq4
            rw [todoUpdateModel_snd] at hsnd
            dsimp only at hsnd
            rw [← hsnd]
            refine happly id b ?_
            by_cases hbt : b.title = none
            · exact Or.inl hbt
            · exact Or.inr (updValidate_ok_title body b heq2
                (by simp [Option.isSome_iff_ne_none, hbt]))
          · rename_i st2 heq4
            have hsnd := congrArg Prod.snd heq4
            rw [todoUpdateModel_snd] at hsnd
            dsimp only at hsnd
            rw [← hsnd]
            refine happly id b ?_
            by_cases hbt : b.title = none
            · exact Or.inl hbt
            · exact Or.inr (updValidate_ok_title body b heq2
                (by simp [Option.isSome_iff_ne_none, hbt]))
  · intro idStr
    unfold toggleTodoOp
    split
    · exact hinv
    · rename_i id heq
      unfold toggleCompletion
      split
      · exact hinv
      · rename_i t0 heq2
        split
        · rename_i t' st2 heq3
          have hsnd := congrArg Prod.snd heq3
          rw [todoUpdateModel_snd] at hsnd
          dsimp only at hsnd
          rw [← hsnd]
          exact happly id _ (Or.inl rfl)
        · rename_i st2 heq3
          have hsnd := congrArg Prod.snd heq3
          rw [todoUpdateModel_snd] at hsnd
          dsimp only at hsnd
          rw [← hsnd]
          exact happly id _ (Or.inl rfl)
  · intro idStr
    unfold deleteTodoOp
    split
    · exact hinv
    · rename_i id heq
      unfold serviceDeleteTodo
      split
      · exact hinv
      · intro t htmem
        dsimp only at htmem
        exact hinv t (List.mem_filter.mp htmem).1

/-- Witness for C9: the empty store satisfies the invariant and a
create keeps it. -/
theorem title_invariant_preserved_witness :
    TitleInv Store.empty ∧
    TitleInv (createTodoOp Store.empty
      (some { title := some (.str "Buy groceries") })).2 :=
  ⟨fun t ht => absurd ht (by simp [Store.empty]),
   (title_invariant_preserved Store.empty
      (fun t ht => absurd ht (by simp [Store.empty]))).1 _⟩
